import Mathlib

/-!
Verification development for the KatikaNaMe portfolio backend.

The repository has two server variants:
* `src/unnamed/part_000` — a pdfkit-based backend; its
  `POST /api/portfolios/:id/generate-pdf` route draws a paginated PDF
  page-by-page with explicit coordinates (cover page, optional about page,
  one page per section, optional skills page with wrapping chips, contact
  page with a timestamp footer).
* `src/backend/server.js` — an html-pdf based backend; its
  `generatePortfolioHTML` composes a complete HTML document from one of three
  templates (`modern` / `classic` / `artistic`).

This file shallowly embeds the document-generation pipeline of both variants:
JavaScript template literals become string concatenation, the pdfkit drawing
calls become an explicit trace of drawing operations, JS truthiness on
optional string fields is made explicit, and the current clock
(`Date.now()`, `new Date().getFullYear()`, `toLocaleDateString()`) is passed
as an explicit parameter.  Machine floats of the layout arithmetic are
embedded as rationals.
-/

/-! ## JavaScript semantics helpers -/

/-- JS truthiness of a possibly-undefined string: `undefined` and `""` are
falsy, every other string is truthy. -/
def jsTruthy : Option String → Bool
  | none => false
  | some s => !s.isEmpty

/-- JS `a || b` for a possibly-undefined string `a` and a string default. -/
def jsOr : Option String → String → String
  | some s, b => if s.isEmpty then b else s
  | none, b => b

/-- JS string interpolation `${x}` of a possibly-undefined value: an absent
field renders as the literal text `undefined`. -/
def jsUndef : Option String → String
  | some s => s
  | none => "undefined"

/-- JS `s.charAt(0).toUpperCase() + s.slice(1)`. -/
def capFirst (s : String) : String :=
  match s.data with
  | [] => ""
  | c :: cs => ⟨c.toUpper :: cs⟩

/-- JS `s.toUpperCase()` (ASCII part, which is all the repository uses). -/
def jsToUpper (s : String) : String := ⟨s.data.map Char.toUpper⟩

/-- JS `s.replace('_', ' ')`: replaces only the first occurrence. -/
def replaceFirstUnderscore (s : String) : String :=
  match s.splitOn "_" with
  | [] => s
  | [_] => s
  | p :: q :: rest => p ++ " " ++ String.intercalate "_" (q :: rest)

/-- Helper for JS `s.split(sep)` with a one-character separator. -/
def splitOnCharAux (sep : Char) : List Char → List Char → List String
  | [], acc => [⟨acc.reverse⟩]
  | c :: rest, acc =>
    if c = sep then ⟨acc.reverse⟩ :: splitOnCharAux sep rest []
    else splitOnCharAux sep rest (c :: acc)

/-- JS `s.split(',')`.  In particular `"".split(',') = ['']`. -/
def jsSplitComma (s : String) : List String := splitOnCharAux ',' s.data []

/-- JS `s.trim()`. -/
def jsTrim (s : String) : String :=
  ⟨(s.data.dropWhile Char.isWhitespace).reverse.dropWhile Char.isWhitespace |>.reverse⟩

/-- JS number-to-string coercion for a nonnegative integer (the rendering of
`Date.now()` inside a template literal): most-significant-first decimal
digits. -/
def decDigits (n : ℕ) : List Char :=
  if h : n < 10 then [Char.ofNat (48 + n)]
  else decDigits (n / 10) ++ [Char.ofNat (48 + n % 10)]
  decreasing_by exact Nat.div_lt_self (by omega) (by omega)

/-- JS `${n}` for a nonnegative integer. -/
def jsNumToString (n : ℕ) : String := ⟨decDigits n⟩

/-- Decoder of a decimal digit string, used to prove the rendering of
`Date.now()` injective. -/
def decValue (l : List Char) : ℕ := l.foldl (fun acc c => 10 * acc + (c.toNat - 48)) 0

/-- Predicate: `needle` occurs as a contiguous substring of `hay`. -/
def substrOccurs (needle hay : String) : Prop := needle.data <:+: hay.data

instance (n h : String) : Decidable (substrOccurs n h) := by
  unfold substrOccurs
  infer_instance

/-! ## part_000: `hexToRgb` (lines 381–388)

```js
function hexToRgb(hex) {
  const result = /^#?([a-f\d]{2})([a-f\d]{2})([a-f\d]{2})$/i.exec(hex);
  return result ? {
    r: parseInt(result[1], 16),
    g: parseInt(result[2], 16),
    b: parseInt(result[3], 16)
  } : { r: 176, g: 38, b: 255 };
}
```
-/

structure Rgb where
  r : ℕ
  g : ℕ
  b : ℕ
deriving DecidableEq

/-- Membership in the regex character class `[a-f\d]` with the `i` flag,
by code point. -/
def isHexDigitJs (c : Char) : Bool :=
  (48 ≤ c.toNat && c.toNat ≤ 57) || (97 ≤ c.toNat && c.toNat ≤ 102) ||
    (65 ≤ c.toNat && c.toNat ≤ 70)

/-- JS `parseInt(d, 16)` for one hex digit. -/
def hexVal (c : Char) : ℕ :=
  if 48 ≤ c.toNat && c.toNat ≤ 57 then c.toNat - 48
  else if 97 ≤ c.toNat && c.toNat ≤ 102 then c.toNat - 87
  else c.toNat - 55

/-- The optional leading `#` of the regex: `#?` consumes one `#` if
present. -/
def stripHash : List Char → List Char
  | '#' :: rest => rest
  | cs => cs

/-- The anchored regex `/^#?([a-f\d]{2})([a-f\d]{2})([a-f\d]{2})$/i` matched
against the input, followed by `parseInt(_, 16)` of each captured pair; on
no match, the fixed fallback `{ r: 176, g: 38, b: 255 }`. -/
def hexToRgb (hex : String) : Rgb :=
  match stripHash hex.data with
  | [a, b, c, d, e, f] =>
    if (isHexDigitJs a && isHexDigitJs b && isHexDigitJs c && isHexDigitJs d &&
        isHexDigitJs e && isHexDigitJs f) then
      ⟨16 * hexVal a + hexVal b, 16 * hexVal c + hexVal d, 16 * hexVal e + hexVal f⟩
    else ⟨176, 38, 255⟩
  | _ => ⟨176, 38, 255⟩

/-- The set of strings accepted by the regex: an optional leading `#`
followed by exactly six (case-insensitive) hex digits. -/
def validHex (hex : String) : Bool :=
  (stripHash hex.data).length = 6 && (stripHash hex.data).all isHexDigitJs

/-- Spec-side generator of a well-formed 6-digit uppercase hex color, used to
state the round-trip property. -/
def hexDigitChar (n : ℕ) : Char :=
  if n < 10 then Char.ofNat (48 + n) else Char.ofNat (55 + n)

/-- Spec-side: `#RRGGBB` for components below 256. -/
def toHex6 (r g b : ℕ) : String :=
  ⟨'#' :: ([hexDigitChar (r / 16), hexDigitChar (r % 16),
            hexDigitChar (g / 16), hexDigitChar (g % 16),
            hexDigitChar (b / 16), hexDigitChar (b % 16)])⟩

/-! ## part_000: data model of the generate-pdf route

Mirrors the populated portfolio consumed by
`app.post('/api/portfolios/:id/generate-pdf')` (lines 350–603): artist and
portfolio documents of the mongoose schemas, with optional string fields as
`Option String` and JS object-entry order of `socialLinks` as a list of
platform/url pairs in schema order. -/

structure PdfLocation where
  city : Option String
  country : Option String

structure PdfArtist where
  name : String
  email : String
  bio : Option String
  category : Option String
  experience : Option String
  genres : List String
  location : Option PdfLocation
  socialLinks : Option (List (String × Option String))

structure PdfSection where
  type : String
  title : Option String
  content : Option String

structure PdfColors where
  primary : Option String
  accent : Option String

structure PdfPortfolio where
  artist : PdfArtist
  title : String
  description : Option String
  sections : List PdfSection
  colors : Option PdfColors

/-- Source: `portfolio.customizations?.colors || { primary: '#B026FF', accent: '#FFD23F' }` -/
def defaultPdfColors : PdfColors := ⟨some "#B026FF", some "#FFD23F"⟩

/-- Fill ink of a pdfkit `.fill(...)` call: an RGB triple array or a named
CSS color string. -/
inductive Ink where
  | rgb (c : Rgb)
  | named (s : String)
deriving DecidableEq

/-- One drawing operation of the pdfkit document: an explicit page break, a
filled rectangle, a text draw at explicit coordinates, or a text draw at the
implicit cursor (`doc.y`). -/
inductive PdfOp where
  | addPage
  | rect (x y w h : ℚ) (fill : Ink)
  | textAt (s : String) (x y : ℚ)
  | textCur (s : String)
deriving DecidableEq

/-- Cover page (lines 399–431): primary banner, name, category (first `_`
replaced by a space, upper-cased, with fallback), experience level, accent
divider, portfolio title, optional description. -/
def coverOps (pw : ℚ) (p : PdfPortfolio) (prgb argb : Rgb) : List PdfOp :=
  [ .rect 0 0 pw 200 (.rgb prgb),
    .textAt p.artist.name 50 80,
    .textAt (jsOr (p.artist.category.map fun c => jsToUpper (replaceFirstUnderscore c))
      "CREATIVE PROFESSIONAL") 50 120,
    .textAt (jsUndef (p.artist.experience.map jsToUpper) ++ " LEVEL") 50 145,
    .rect 50 180 (pw - 100) 3 (.rgb argb),
    .textAt p.title 50 220 ] ++
  (match p.description with
   | some d => if d.isEmpty then [] else [.textCur d]
   | none => [])

/-- About page (lines 434–450): emitted only when `portfolio.artist.bio` is
truthy. -/
def aboutOps (pw : ℚ) (p : PdfPortfolio) (argb : Rgb) : List PdfOp :=
  match p.artist.bio with
  | some b =>
    if b.isEmpty then []
    else
      [ .addPage,
        .rect 50 50 (pw - 100) 40 (.rgb argb),
        .textAt "ABOUT THE ARTIST" 60 65,
        .textAt b 50 110 ]
  | none => []

/-- One portfolio section page (lines 453–471): unconditional `addPage` and
header band with `(section.title || section.type).toUpperCase()`; the body
text only when `section.content` is truthy. -/
def sectionOps (pw : ℚ) (argb : Rgb) (s : PdfSection) : List PdfOp :=
  [ .addPage,
    .rect 50 50 (pw - 100) 40 (.rgb argb),
    .textAt (jsToUpper (jsOr s.title s.type)) 60 65 ] ++
  (match s.content with
   | some c => if c.isEmpty then [] else [.textAt c 50 110]
   | none => [])

/-- One placed skill chip: its genre string, the x/y of its rectangle, and
its computed width `doc.widthOfString(genre) + 20`. -/
structure Chip where
  genre : String
  x : ℚ
  y : ℚ
  w : ℚ
deriving DecidableEq

/-- The chip-placement loop of the skills page (lines 484–503), with the
cursor `(skillX, skillY)` threaded through: before drawing, a chip whose
right edge `skillX + skillWidth` would pass `doc.page.width - 50` resets the
cursor to `x = 50` and advances `y` by 35; afterwards the cursor moves right
by the chip width plus a 10-unit gap. -/
def chipPlaces (pw : ℚ) (wS : String → ℚ) : List String → ℚ × ℚ → List Chip
  | [], _ => []
  | g :: gs, (sx, sy) =>
    let sw := wS g + 20
    let x := if sx + sw > pw - 50 then 50 else sx
    let y := if sx + sw > pw - 50 then sy + 35 else sy
    ⟨g, x, y, sw⟩ :: chipPlaces pw wS gs (x + sw + 10, y)

/-- The claimed relation between two consecutively placed chips: either the
next chip would overrun the right margin `pw - 50` and wraps to a fresh row
(`x = 50`, `y` advanced by exactly 35), or it sits on the same row, 10 units
right of the previous chip. -/
def chipStepRel (pw : ℚ) (a b : Chip) : Prop :=
  if a.x + a.w + 10 + b.w > pw - 50 then b.x = 50 ∧ b.y = a.y + 35
  else b.x = a.x + a.w + 10 ∧ b.y = a.y

/-- Drawing operations of the placed chips: a primary-filled rectangle of
height 25 and the genre text offset by (10, 8). -/
def chipOps (prgb : Rgb) (places : List Chip) : List PdfOp :=
  places.flatMap fun c => [.rect c.x c.y c.w 25 (.rgb prgb), .textAt c.genre (c.x + 10) (c.y + 8)]

/-- Skills page (lines 474–504): emitted only when `portfolio.artist.genres`
is a non-empty array; chips start at `(50, 120)`. -/
def skillsOps (pw : ℚ) (wS : String → ℚ) (prgb argb : Rgb) (genres : List String) : List PdfOp :=
  if genres.isEmpty then []
  else
    [ .addPage,
      .rect 50 50 (pw - 100) 40 (.rgb argb),
      .textAt "SKILLS & SPECIALTIES" 60 65 ] ++
    chipOps prgb (chipPlaces pw wS genres (50, 120))

/-- Source: `[location.city, location.country].filter(Boolean).join(', ')` -/
def joinedLocation (l : PdfLocation) : String :=
  String.intercalate ", " (([l.city, l.country].filter jsTruthy).map (jsUndef ·))

/-- Social-links loop of the contact page (lines 552–559): one line per
truthy url, capitalized platform name, cursor advancing by 20. -/
def socialOps : List (String × Option String) → ℚ → List PdfOp
  | [], _ => []
  | (plat, u) :: rest, y =>
    match u with
    | some url =>
      if url.isEmpty then socialOps rest y
      else .textAt (capFirst plat ++ ": " ++ url) 50 y :: socialOps rest (y + 20)
    | none => socialOps rest y

/-- Contact page (lines 507–560) without the footer: header band, email
block, optional location block, optional social block, with the manual
`contactY` cursor starting at 120 and advancing by fixed increments. -/
def contactOps (pw : ℚ) (p : PdfPortfolio) (prgb argb : Rgb) : List PdfOp :=
  [ .addPage,
    .rect 50 50 (pw - 100) 40 (.rgb argb),
    .textAt "CONTACT INFORMATION" 60 65,
    .textAt "Email:" 50 120,
    .textAt p.artist.email 50 140 ] ++
  (let contactY : ℚ := 170
   let locBlock : List PdfOp :=
     match p.artist.location with
     | some l =>
       if jsTruthy l.city || jsTruthy l.country then
         [ .textAt "Location:" 50 contactY,
           .textAt (joinedLocation l) 50 (contactY + 20) ]
       else []
     | none => []
   let contactY2 : ℚ := if locBlock.isEmpty then contactY else contactY + 50
   locBlock ++
   (match p.artist.socialLinks with
    | some links => .textAt "Connect Online:" 50 contactY2 :: socialOps links (contactY2 + 25)
    | none => []))

/-- Footer line (lines 563–570), drawn on the contact page with the
generation date. -/
def footerOp (pw ph : ℚ) (ts : String) : PdfOp :=
  .textAt ("Generated by KatikaNaMe Platform â€¢ " ++ ts) 50 (ph - 30)

/-- The trace of drawing operations of one generate-pdf call of the pdfkit
variant, as a function of page width/height, the text-width measure
`doc.widthOfString`, the rendered `new Date().toLocaleDateString()`, and the
populated portfolio. -/
def generatePdfTrace (pw ph : ℚ) (wS : String → ℚ) (ts : String) (p : PdfPortfolio) :
    List PdfOp :=
  let colors := p.colors.getD defaultPdfColors
  let prgb := hexToRgb (jsUndef colors.primary)
  let argb := hexToRgb (jsUndef colors.accent)
  coverOps pw p prgb argb ++
  aboutOps pw p argb ++
  p.sections.flatMap (sectionOps pw argb) ++
  skillsOps pw wS prgb argb p.artist.genres ++
  contactOps pw p prgb argb ++
  [footerOp pw ph ts]

/-- Recognizer of the explicit page-break operation. -/
def isAddPage : PdfOp → Bool
  | .addPage => true
  | _ => false

/-- Number of pages of the produced document: pdfkit creates the first
(cover) page when the document is constructed, and every further page comes
from an explicit `doc.addPage()`. -/
def numPages (trace : List PdfOp) : ℕ := 1 + trace.countP isAddPage

/-- Filename `portfolio-${portfolio._id}-${Date.now()}.pdf` (line 364 of the pdfkit
variant). -/
def pdfFilename (id : String) (now : ℕ) : String :=
  "portfolio-" ++ id ++ "-" ++ jsNumToString now ++ ".pdf"

/-- Path `path.join('generated/pdfs', portfolio.id + '.pdf')` (line 547 of the
html-pdf variant).  The route ignores the clock: the parameter `now` records
the time of the generation call, and the produced path does not depend on
it. -/
def v2GeneratedPdfPath (id : String) (now : ℕ) : String :=
  "generated/pdfs/" ++ id ++ ".pdf"

/-! ## server.js: data model of the HTML composer

`generatePortfolioHTML(data, template, customizations)` receives the merge
`{ ...artist, ...portfolio, skills: artist.genres }`; the composer reads the
flat fields below.  A field that may be absent (undefined) is an
`Option String`. -/

/-- The dynamic value of `data.skills`: an array, a plain string, or
undefined. -/
inductive SkillsVal where
  | arr (l : List String)
  | str (s : String)
  | undef

/-- Source: `Array.isArray(data.skills) ? data.skills : (data.skills || '').split(',').map(s => s.trim())`
(line 76). -/
def skillsListOf : SkillsVal → List String
  | .arr l => l
  | .str s => (jsSplitComma s).map jsTrim
  | .undef => (jsSplitComma "").map jsTrim

structure HtmlData where
  name : String
  title : Option String
  experience : Option String
  location : Option String
  aboutMe : Option String
  jobs : Option String
  skills : SkillsVal
  services : Option String
  testimonials : Option String
  instagram : Option String
  youtube : Option String
  tiktok : Option String
  facebook : Option String
  twitter : Option String
  website : Option String
  email : String
  phone : Option String

/-- The colors customization object: each field may be individually
absent. -/
structure ColorsObj where
  primary : Option String
  accent : Option String
  background : Option String

/-- The default palette used when no colors object is supplied (lines
79–83). -/
def defaultColors : ColorsObj := ⟨some "#B026FF", some "#FFD23F", some "#0a0a12"⟩

/-- The customizations object (`= {}` by default); extra keys are
ignored. -/
structure Customizations where
  colors : Option ColorsObj

/-- Source: `const colors = customizations.colors || { primary: ..., accent: ...,
background: ... }`: a whole-object fallback — JS `||` replaces only a falsy
(absent) colors object, never individual missing fields. -/
def resolveColors (customizations : Customizations) : ColorsObj :=
  customizations.colors.getD defaultColors

/-- The three rendering strategies of the template switch. -/
inductive TemplateKind where
  | modern
  | classic
  | artistic
deriving DecidableEq

/-- The `switch(template)` of lines 87–99: the three recognized identifiers,
everything else falling through to `default: modern`. -/
def templateStrategy (template : String) : TemplateKind :=
  if template = "modern" then .modern
  else if template = "classic" then .classic
  else if template = "artistic" then .artistic
  else .modern

/-- Source: `skillsList.map(skill => `<span class="skill">${skill}</span>`).join('')` -/
def skillChipsHtml (skillsList : List String) : String :=
  String.join (skillsList.map fun skill => "<span class=\"skill\">" ++ skill ++ "</span>")

/-- One conditional social-link anchor
`${url ? `<a href="${url}" target="_blank"><i class="ICON"></i></a>` : ''}`. -/
def socialAnchor (url : Option String) (icon : String) : String :=
  match url with
  | some u =>
    if u.isEmpty then ""
    else "<a href=\"" ++ u ++ "\" target=\"_blank\"><i class=\"" ++ icon ++ "\"></i></a>"
  | none => ""

/-! ### Modern template (lines 170–235) -/

/-- The unconditional About block of the modern template: rendered for every
record, with `${data.aboutMe}` interpolated as-is. -/
def modernAboutSection (data : HtmlData) : String :=
  "<section>\n            <h2>About Me</h2>\n            <div class=\"section-content\">" ++
    jsUndef data.aboutMe ++ "</div>\n        </section>"

/-- Source: `${data.jobs ? `...Experience...` : ''}` -/
def modernJobsSection (data : HtmlData) : String :=
  if jsTruthy data.jobs then
    "\n        <section>\n            <h2>Experience</h2>\n            <div class=\"section-content\">" ++
      jsUndef data.jobs ++ "</div>\n        </section>\n        "
  else ""

/-- Source: `${data.services ? `...Services...` : ''}` -/
def modernServicesSection (data : HtmlData) : String :=
  if jsTruthy data.services then
    "\n        <section>\n            <h2>Services</h2>\n            <div class=\"section-content\">" ++
      jsUndef data.services ++ "</div>\n        </section>\n        "
  else ""

/-- Source: `${data.testimonials ? `...Testimonials...` : ''}` -/
def modernTestimonialsSection (data : HtmlData) : String :=
  if jsTruthy data.testimonials then
    "\n        <section>\n            <h2>Testimonials</h2>\n            <div class=\"section-content\" style=\"font-style: italic;\">" ++
      jsUndef data.testimonials ++ "</div>\n        </section>\n        "
  else ""

/-- Source: `${data.phone ? `<p>Phone: ${data.phone}</p>` : ''}` -/
def phoneLine (data : HtmlData) : String :=
  if jsTruthy data.phone then "<p>Phone: " ++ jsUndef data.phone ++ "</p>" else ""

/-- The modern template body, from the opening header through `</main>`. -/
def modernBody (data : HtmlData) (skillsList : List String) : String :=
  "\n    <header>\n        <div class=\"container\">\n            <img src=\"https://images.unsplash.com/photo-1583864697784-a0efc8379f70?ixlib=rb-4.0.3&auto=format&fit=crop&w=600&q=80\" alt=\"" ++
  data.name ++ "\" class=\"profile-img\">\n            <h1>" ++ data.name ++
  "</h1>\n            <h3>" ++ jsUndef data.title ++ "</h3>\n            <p>" ++
  jsUndef data.experience ++ " • " ++ jsOr data.location "Creative Professional" ++
  "</p>\n        </div>\n    </header>\n\n    <main class=\"container\">\n        " ++
  modernAboutSection data ++ "\n\n        " ++ modernJobsSection data ++
  "\n\n        <section>\n            <h2>Skills</h2>\n            <div class=\"skills\">\n                " ++
  skillChipsHtml skillsList ++ "\n            </div>\n        </section>\n\n        " ++
  modernServicesSection data ++ "\n\n        " ++ modernTestimonialsSection data ++
  "\n\n        <section>\n            <h2>Connect With Me</h2>\n            <div class=\"social-links\">\n                " ++
  socialAnchor data.instagram "fab fa-instagram" ++ "\n                " ++
  socialAnchor data.youtube "fab fa-youtube" ++ "\n                " ++
  socialAnchor data.tiktok "fab fa-tiktok" ++ "\n                " ++
  socialAnchor data.facebook "fab fa-facebook" ++ "\n                " ++
  socialAnchor data.twitter "fab fa-twitter" ++ "\n                " ++
  socialAnchor data.website "fas fa-globe" ++
  "\n            </div>\n            <div style=\"margin-top: 1rem;\">\n                <p>Email: <a href=\"mailto:" ++
  data.email ++ "\" style=\"color: var(--accent);\">" ++ data.email ++
  "</a></p>\n                " ++ phoneLine data ++
  "\n            </div>\n        </section>\n    </main>"

/-- Footer opening shared by the modern and classic templates, up to the
interpolated year. -/
def plainFooterPre : String := "\n\n    <footer>\n        <p>&copy; "

/-- Footer closing of the modern and classic templates, after the
interpolated year. -/
def plainFooterPost (name : String) : String :=
  " " ++ name ++ ". All rights reserved.</p>\n    </footer>"

def generateModernTemplate (data : HtmlData) (skillsList : List String)
    (colors : ColorsObj) (year : ℕ) : String :=
  modernBody data skillsList ++ plainFooterPre ++ jsNumToString year ++
    plainFooterPost data.name

/-! ### Classic template (lines 237–311) -/

def classicJobsSection (data : HtmlData) : String :=
  if jsTruthy data.jobs then
    "\n                <section>\n                    <h2>Experience</h2>\n                    <div class=\"section-content\">" ++
      jsUndef data.jobs ++ "</div>\n                </section>\n                "
  else ""

def classicServicesSection (data : HtmlData) : String :=
  if jsTruthy data.services then
    "\n                <section>\n                    <h2>Services</h2>\n                    <div class=\"section-content\">" ++
      jsUndef data.services ++ "</div>\n                </section>\n                "
  else ""

def classicTestimonialsSection (data : HtmlData) : String :=
  if jsTruthy data.testimonials then
    "\n                <section>\n                    <h2>Testimonials</h2>\n                    <div class=\"section-content\" style=\"font-size: 0.9rem; font-style: italic;\">" ++
      jsUndef data.testimonials ++ "</div>\n                </section>\n                "
  else ""

/-- Source: `${data.phone ? `<p><strong>Phone:</strong><br>${data.phone}</p>` : ''}` -/
def classicPhoneLine (data : HtmlData) : String :=
  if jsTruthy data.phone then
    "<p><strong>Phone:</strong><br>" ++ jsUndef data.phone ++ "</p>"
  else ""

def classicBody (data : HtmlData) (skillsList : List String) : String :=
  "\n    <div class=\"container\">\n        <header style=\"background: none; color: inherit; padding: 2rem 0; text-align: left; border-bottom: 2px solid var(--primary);\">\n            <div style=\"display: flex; align-items: center; gap: 2rem;\">\n                <img src=\"https://images.unsplash.com/photo-1583864697784-a0efc8379f70?ixlib=rb-4.0.3&auto=format&fit=crop&w=600&q=80\" \n                     alt=\"" ++
  data.name ++ "\" \n                     style=\"width: 120px; height: 120px; border-radius: 50%; object-fit: cover; border: 3px solid var(--primary);\">\n                <div>\n                    <h1 style=\"margin-bottom: 0.5rem;\">" ++
  data.name ++ "</h1>\n                    <h3 style=\"color: var(--primary); margin-bottom: 0.5rem;\">" ++
  jsUndef data.title ++ "</h3>\n                    <p>" ++ jsOr data.location "" ++
  "</p>\n                </div>\n            </div>\n        </header>\n\n        <main style=\"display: grid; grid-template-columns: 2fr 1fr; gap: 3rem; margin-top: 2rem;\">\n            <div>\n                <section>\n                    <h2>About Me</h2>\n                    <div class=\"section-content\">" ++
  jsUndef data.aboutMe ++ "</div>\n                </section>\n\n                " ++
  classicJobsSection data ++ "\n\n                " ++ classicServicesSection data ++
  "\n            </div>\n\n            <div>\n                <section>\n                    <h2>Contact</h2>\n                    <p><strong>Email:</strong><br><a href=\"mailto:" ++
  data.email ++ "\" style=\"color: var(--accent);\">" ++ data.email ++
  "</a></p>\n                    " ++ classicPhoneLine data ++
  "\n                    \n                    <div style=\"margin-top: 1rem;\">\n                        <h3>Social Links</h3>\n                        <div class=\"social-links\">\n                            " ++
  socialAnchor data.instagram "fab fa-instagram" ++ "\n                            " ++
  socialAnchor data.youtube "fab fa-youtube" ++ "\n                            " ++
  socialAnchor data.tiktok "fab fa-tiktok" ++
  "\n                        </div>\n                    </div>\n                </section>\n\n                <section>\n                    <h2>Skills</h2>\n                    <div class=\"skills\">\n                        " ++
  skillChipsHtml skillsList ++
  "\n                    </div>\n                </section>\n\n                " ++
  classicTestimonialsSection data ++
  "\n            </div>\n        </main>\n    </div>"

def generateClassicTemplate (data : HtmlData) (skillsList : List String)
    (colors : ColorsObj) (year : ℕ) : String :=
  classicBody data skillsList ++ plainFooterPre ++ jsNumToString year ++
    plainFooterPost data.name

/-! ### Artistic template (lines 313–381) -/

def artisticJobsSection (data : HtmlData) : String :=
  if jsTruthy data.jobs then
    "\n        <section style=\"background: rgba(176, 38, 255, 0.1); padding: 3rem; border-radius: 20px; margin: 2rem 0;\">\n            <h2 style=\"text-align: center; font-size: 2rem;\">Performance History</h2>\n            <div class=\"section-content\" style=\"font-size: 1.1rem;\">" ++
      jsUndef data.jobs ++ "</div>\n        </section>\n        "
  else ""

def artisticTestimonialsSection (data : HtmlData) : String :=
  if jsTruthy data.testimonials then
    "\n        <section style=\"text-align: center; padding: 4rem 0;\">\n            <h2 style=\"font-size: 2rem;\">Voices of Appreciation</h2>\n            <div class=\"section-content\" style=\"font-style: italic; font-size: 1.1rem; max-width: 800px; margin: 0 auto; background: rgba(255, 210, 63, 0.1); padding: 2rem; border-radius: 15px;\">\n                " ++
      jsUndef data.testimonials ++ "\n            </div>\n        </section>\n        "
  else ""

def artisticPhoneLine (data : HtmlData) : String :=
  if jsTruthy data.phone then
    "<p style=\"font-size: 1.1rem;\">Phone: " ++ jsUndef data.phone ++ "</p>"
  else ""

/-- The artistic social anchors carry an inline style on the `<a>`. -/
def artisticAnchor (url : Option String) (icon : String) : String :=
  match url with
  | some u =>
    if u.isEmpty then ""
    else "<a href=\"" ++ u ++ "\" target=\"_blank\" style=\"font-size: 2rem; margin: 0 1rem;\"><i class=\"" ++
      icon ++ "\"></i></a>"
  | none => ""

/-- Artistic skill chips, styled with the resolved colors. -/
def artisticChipsHtml (colors : ColorsObj) (skillsList : List String) : String :=
  String.join (skillsList.map fun skill =>
    "<span class=\"skill\" style=\"background: linear-gradient(135deg, " ++
    jsUndef colors.primary ++ ", " ++ jsUndef colors.accent ++
    "); font-size: 1rem; padding: 0.75rem 1.5rem;\">" ++ skill ++ "</span>")

def artisticBody (data : HtmlData) (skillsList : List String) (colors : ColorsObj) : String :=
  "\n    <header style=\"background: linear-gradient(135deg, " ++ jsUndef colors.primary ++
  ", #540d6e, " ++ jsUndef colors.accent ++
  "); background-size: 400% 400%; animation: gradient 15s ease infinite; min-height: 100vh; display: flex; align-items: center; justify-content: center; text-align: center;\">\n        <style>\n            @keyframes gradient \x7b\n                0% \x7b background-position: 0% 50%; \x7d\n                50% \x7b background-position: 100% 50%; \x7d\n                100% \x7b background-position: 0% 50%; \x7d\n            \x7d\n        </style>\n        <div class=\"container\">\n            <img src=\"https://images.unsplash.com/photo-1583864697784-a0efc8379f70?ixlib=rb-4.0.3&auto=format&fit=crop&w=600&q=80\" \n                 alt=\"" ++
  data.name ++ "\" \n                 class=\"profile-img\"\n                 style=\"border: 5px solid " ++
  jsUndef colors.accent ++ "; box-shadow: 0 0 30px rgba(255, 210, 63, 0.5);\">\n            <h1 style=\"font-size: 3.5rem; text-shadow: 2px 2px 4px rgba(0,0,0,0.5);\">" ++
  data.name ++ "</h1>\n            <h3 style=\"font-size: 1.5rem; margin-bottom: 1rem;\">" ++
  jsUndef data.title ++ "</h3>\n            <p style=\"font-size: 1.1rem;\">" ++
  jsUndef data.experience ++ " Artist • " ++ jsOr data.location "Creative Visionary" ++
  "</p>\n        </div>\n    </header>\n\n    <main class=\"container\">\n        <section style=\"text-align: center; padding: 4rem 0;\">\n            <h2 style=\"font-size: 2.5rem; margin-bottom: 2rem;\">My Artistic Journey</h2>\n            <div class=\"section-content\" style=\"font-size: 1.1rem; line-height: 1.8; max-width: 800px; margin: 0 auto;\">\n                " ++
  jsUndef data.aboutMe ++ "\n            </div>\n        </section>\n\n        " ++
  artisticJobsSection data ++
  "\n\n        <section style=\"text-align: center;\">\n            <h2 style=\"font-size: 2rem;\">Artistic Skills</h2>\n            <div class=\"skills\" style=\"justify-content: center; margin-top: 2rem;\">\n                " ++
  artisticChipsHtml colors skillsList ++
  "\n            </div>\n        </section>\n\n        " ++
  artisticTestimonialsSection data ++
  "\n\n        <section style=\"text-align: center; padding: 3rem 0;\">\n            <h2 style=\"font-size: 2rem;\">Let\x27s Create Together</h2>\n            <div class=\"social-links\" style=\"justify-content: center; margin: 2rem 0;\">\n                " ++
  artisticAnchor data.instagram "fab fa-instagram" ++ "\n                " ++
  artisticAnchor data.youtube "fab fa-youtube" ++ "\n                " ++
  artisticAnchor data.tiktok "fab fa-tiktok" ++
  "\n            </div>\n            <div>\n                <p style=\"font-size: 1.1rem;\">Email: <a href=\"mailto:" ++
  data.email ++ "\" style=\"color: var(--accent); font-weight: bold;\">" ++ data.email ++
  "</a></p>\n                " ++ artisticPhoneLine data ++
  "\n            </div>\n        </section>\n    </main>"

def artisticFooterPre : String :=
  "\n\n    <footer style=\"background: rgba(10, 10, 18, 0.8); padding: 2rem 0;\">\n        <p>&copy; "

def artisticFooterPost (name : String) : String :=
  " " ++ name ++ ". All artistic rights reserved.</p>\n    </footer>"

def generateArtisticTemplate (data : HtmlData) (skillsList : List String)
    (colors : ColorsObj) (year : ℕ) : String :=
  artisticBody data skillsList colors ++ artisticFooterPre ++ jsNumToString year ++
    artisticFooterPost data.name

/-! ### Document head and full composer (lines 75–168) -/

/-- The fixed document head, with the title interpolation and the theme
variables of the embedded stylesheet, through the opening `<body>` tag. -/
def docHead (data : HtmlData) (colors : ColorsObj) : String :=
  "<!DOCTYPE html>\n<html lang=\"en\">\n<head>\n    <meta charset=\"UTF-8\">\n    <meta name=\"viewport\" content=\"width=device-width, initial-scale=1.0\">\n    <title>" ++
  data.name ++ " - " ++ jsUndef data.title ++ "</title>" ++
  "\n    <link rel=\"stylesheet\" href=\"https://cdnjs.cloudflare.com/ajax/libs/font-awesome/6.4.0/css/all.min.css\">\n    <link href=\"https://fonts.googleapis.com/css2?family=Poppins:wght@400;600&family=Montserrat:wght@700&display=swap\" rel=\"stylesheet\">\n    <style>\n        :root \x7b\n            --primary: " ++
  jsUndef colors.primary ++ ";\n            --accent: " ++ jsUndef colors.accent ++
  ";\n            --background: " ++ jsUndef colors.background ++
  ";\n            --light: #f5f5f7;\n            --text-gray: #a1a1a6;\n        \x7d\n        * \x7b margin: 0; padding: 0; box-sizing: border-box; \x7d\n        body \x7b\n            font-family: \x27Poppins\x27, sans-serif;\n            background-color: var(--background);\n            color: var(--light);\n            line-height: 1.6;\n        \x7d\n        .container \x7b max-width: 1200px; margin: 0 auto; padding: 0 20px; \x7d\n        header \x7b\n            background: linear-gradient(135deg, var(--primary), var(--accent));\n            color: white;\n            padding: 4rem 0;\n            text-align: center;\n        \x7d\n        .profile-img \x7b\n            width: 180px;\n            height: 180px;\n            border-radius: 50%;\n            object-fit: cover;\n            border: 5px solid var(--accent);\n            margin-bottom: 2rem;\n        \x7d\n        h1 \x7b font-family: \x27Montserrat\x27, sans-serif; font-size: 2.5rem; margin-bottom: 1rem; \x7d\n        h2 \x7b color: var(--accent); margin: 2rem 0 1rem; \x7d\n        section \x7b padding: 2rem 0; \x7d\n        .skills \x7b display: flex; flex-wrap: wrap; gap: 10px; \x7d\n        .skill \x7b\n            background: var(--primary);\n            color: white;\n            padding: 0.5rem 1rem;\n            border-radius: 20px;\n            font-size: 0.9rem;\n        \x7d\n        .social-links \x7b display: flex; gap: 15px; margin-top: 1rem; \x7d\n        .social-links a \x7b\n            color: var(--accent);\n            font-size: 1.5rem;\n            text-decoration: none;\n            transition: color 0.3s;\n        \x7d\n        .social-links a:hover \x7b\n            color: var(--primary);\n        \x7d\n        footer \x7b text-align: center; padding: 2rem 0; color: var(--text-gray); \x7d\n        .section-content \x7b white-space: pre-line; \x7d\n    </style>\n</head>\n<body>\n    "

/-- Dispatch of the selected strategy to its template function. -/
def applyTemplate : TemplateKind → HtmlData → List String → ColorsObj → ℕ → String
  | .modern, data, skillsList, colors, year => generateModernTemplate data skillsList colors year
  | .classic, data, skillsList, colors, year => generateClassicTemplate data skillsList colors year
  | .artistic, data, skillsList, colors, year => generateArtisticTemplate data skillsList colors year

/-- Composer `generatePortfolioHTML(data, template, customizations = {})` (lines
75–168): derives the skills list and resolved colors, selects the template
strategy, and wraps its body in the fixed document head and closing tags.
The clock (`new Date().getFullYear()`) is the explicit `year` parameter. -/
def generatePortfolioHTML (data : HtmlData) (template : String)
    (customizations : Customizations) (year : ℕ) : String :=
  let sl := skillsListOf data.skills
  let colors := resolveColors customizations
  docHead data colors ++
    applyTemplate (templateStrategy template) data sl colors year ++
    "\n</body>\n</html>"

/-- Everything of the composed document before the interpolated footer year:
a function that does not receive the clock. -/
def htmlTimePre (data : HtmlData) (template : String) (customizations : Customizations) : String :=
  let sl := skillsListOf data.skills
  let colors := resolveColors customizations
  docHead data colors ++
    (match templateStrategy template with
     | .modern => modernBody data sl ++ plainFooterPre
     | .classic => classicBody data sl ++ plainFooterPre
     | .artistic => artisticBody data sl colors ++ artisticFooterPre)

/-- Everything of the composed document after the interpolated footer year:
a function that does not receive the clock. -/
def htmlTimePost (data : HtmlData) (template : String) : String :=
  (match templateStrategy template with
   | .modern => plainFooterPost data.name
   | .classic => plainFooterPost data.name
   | .artistic => artisticFooterPost data.name) ++ "\n</body>\n</html>"

/-! ### Concrete records used by closed statements -/

/-- A record whose About field is the explicit empty string, all conditional
fields absent. -/
def emptyAboutData : HtmlData :=
  ⟨"Ama K.", some "Musician", some "professional", some "Accra", some "", none,
   .arr ["vocals", "guitar"], none, none, some "https://instagram.com/ama", none,
   none, none, none, none, "ama@x.com", none⟩

/-- A record with every optional field absent (undefined). -/
def undefinedFieldsData : HtmlData :=
  ⟨"Kwame", none, none, none, none, none, .undef, none, none, none, none, none,
   none, none, none, "k@x.com", none⟩

/-- A record with every conditional field populated. -/
def fullData : HtmlData :=
  ⟨"Ama K.", some "Musician", some "professional", some "Accra", some "Bio text",
   some "Did gigs", .arr ["vocals"], some "Lessons", some "Great artist!",
   some "https://instagram.com/ama", some "https://youtube.com/ama", none, none,
   none, none, "ama@x.com", some "+233 555 0100"⟩

/-! ## Helper lemmas -/

theorem hexVal_le_of_isHexDigitJs (c : Char) (h : isHexDigitJs c = true) : hexVal c ≤ 15 := by
  unfold isHexDigitJs at h
  unfold hexVal
  generalize c.toNat = n at *
  simp only [Bool.or_eq_true, Bool.and_eq_true, decide_eq_true_eq] at h
  split
  · rename_i h1
    simp only [Bool.and_eq_true, decide_eq_true_eq] at h1
    omega
  · rename_i h1
    split
    · rename_i h2
      simp only [Bool.and_eq_true, decide_eq_true_eq] at h2
      omega
    · rename_i h2
      simp only [Bool.and_eq_true, decide_eq_true_eq, not_and, not_le] at h1 h2
      rcases h with h | h | h <;> omega

theorem hexToRgb_components_le (s : String) :
    (hexToRgb s).r ≤ 255 ∧ (hexToRgb s).g ≤ 255 ∧ (hexToRgb s).b ≤ 255 := by
  unfold hexToRgb
  generalize stripHash s.data = cs
  split
  · rename_i a b c d e f
    split
    · rename_i hall
      simp only [Bool.and_eq_true] at hall
      obtain ⟨⟨⟨⟨⟨ha, hb⟩, hc⟩, hd⟩, he⟩, hf⟩ := hall
      have := hexVal_le_of_isHexDigitJs a ha
      have := hexVal_le_of_isHexDigitJs b hb
      have := hexVal_le_of_isHexDigitJs c hc
      have := hexVal_le_of_isHexDigitJs d hd
      have := hexVal_le_of_isHexDigitJs e he
      have := hexVal_le_of_isHexDigitJs f hf
      refine ⟨?_, ?_, ?_⟩ <;> simp only <;> omega
    · exact ⟨by decide, by decide, by decide⟩
  · exact ⟨by decide, by decide, by decide⟩

theorem hexToRgb_of_invalid (s : String) (h : validHex s = false) :
    hexToRgb s = ⟨176, 38, 255⟩ := by
  unfold hexToRgb
  unfold validHex at h
  revert h
  generalize stripHash s.data = cs
  intro h
  split
  · rename_i a b c d e f
    simp only [List.all_cons, List.all_nil, List.length_cons, List.length_nil,
      Bool.and_eq_false_iff] at h
    split
    · rename_i hall
      simp only [Bool.and_eq_true] at hall
      obtain ⟨⟨⟨⟨⟨ha, hb⟩, hc⟩, hd⟩, he⟩, hf⟩ := hall
      simp [ha, hb, hc, hd, he, hf] at h
    · rfl
  · rfl

theorem hexVal_hexDigitChar : ∀ n : Fin 16,
    hexVal (hexDigitChar n) = n ∧ isHexDigitJs (hexDigitChar n) = true := by decide

theorem hexToRgb_toHex6 (r g b : ℕ) (hr : r < 256) (hg : g < 256) (hb : b < 256) :
    hexToRgb (toHex6 r g b) = ⟨r, g, b⟩ := by
  have key : ∀ n : ℕ, n < 16 →
      hexVal (hexDigitChar n) = n ∧ isHexDigitJs (hexDigitChar n) = true :=
    fun n h => hexVal_hexDigitChar ⟨n, h⟩
  obtain ⟨v1, d1⟩ := key (r / 16) (by omega)
  obtain ⟨v2, d2⟩ := key (r % 16) (by omega)
  obtain ⟨v3, d3⟩ := key (g / 16) (by omega)
  obtain ⟨v4, d4⟩ := key (g % 16) (by omega)
  obtain ⟨v5, d5⟩ := key (b / 16) (by omega)
  obtain ⟨v6, d6⟩ := key (b % 16) (by omega)
  unfold hexToRgb toHex6
  simp only [stripHash, d1, d2, d3, d4, d5, d6, Bool.and_self, if_true, v1, v2, v3, v4,
    v5, v6, Rgb.mk.injEq]
  omega

/-! ## Claims -/

/-- C3: `hexToRgb` is total: every component of its result lies in [0,255]
(the fallback `{176,38,255}` included); it accepts exactly an optional
leading `#` plus six case-insensitive hex digits and returns the fixed
fallback on every other string; it round-trips well-formed 6-digit hex, in
particular `hexToRgb("#B026FF") = {176,38,255}`. -/
theorem hexToRgb_total_spec :
    (∀ s : String, (hexToRgb s).r ≤ 255 ∧ (hexToRgb s).g ≤ 255 ∧ (hexToRgb s).b ≤ 255)
    ∧ hexToRgb "#B026FF" = ⟨176, 38, 255⟩
    ∧ hexToRgb "#b026ff" = ⟨176, 38, 255⟩
    ∧ hexToRgb "B026FF" = ⟨176, 38, 255⟩
    ∧ (∀ s : String, validHex s = false → hexToRgb s = ⟨176, 38, 255⟩)
    ∧ (∀ r g b : ℕ, r < 256 → g < 256 → b < 256 → hexToRgb (toHex6 r g b) = ⟨r, g, b⟩) :=
  ⟨hexToRgb_components_le, by decide, by decide, by decide, hexToRgb_of_invalid,
   hexToRgb_toHex6⟩

/-- C3 witness: the theorem applied at concrete inputs. -/
theorem hexToRgb_total_spec_witness :
    hexToRgb "not-a-color" = ⟨176, 38, 255⟩ ∧ hexToRgb (toHex6 18 52 86) = ⟨18, 52, 86⟩ :=
  ⟨hexToRgb_total_spec.2.2.2.2.1 "not-a-color" (by decide),
   hexToRgb_total_spec.2.2.2.2.2 18 52 86 (by decide) (by decide) (by decide)⟩

/-- C7: the template selector maps `modern`/`classic`/`artistic` to their
strategies and every other string — empty or arbitrary — to the modern
strategy, never signalling an error. -/
theorem templateStrategy_spec :
    templateStrategy "modern" = TemplateKind.modern
    ∧ templateStrategy "classic" = TemplateKind.classic
    ∧ templateStrategy "artistic" = TemplateKind.artistic
    ∧ (∀ s : String, s ≠ "modern" → s ≠ "classic" → s ≠ "artistic" →
        templateStrategy s = TemplateKind.modern) := by
  refine ⟨by decide, by decide, by decide, fun s h1 h2 h3 => ?_⟩
  unfold templateStrategy
  rw [if_neg h1, if_neg h2, if_neg h3]

/-- C7 witness: the selector applied to the empty string and to an
unrecognized identifier. -/
theorem templateStrategy_spec_witness :
    templateStrategy "" = TemplateKind.modern
    ∧ templateStrategy "fancy" = TemplateKind.modern :=
  ⟨templateStrategy_spec.2.2.2 "" (by decide) (by decide) (by decide),
   templateStrategy_spec.2.2.2 "fancy" (by decide) (by decide) (by decide)⟩

/-- C5 counterexample: a customization supplying only `primary`.  The claim
predicts the missing `accent` and `background` are individually filled with
their defaults, but the whole-object `||` fallback keeps the supplied object
as-is, leaving them absent. -/
theorem resolveColors_partial_not_defaulted :
    (resolveColors ⟨some ⟨some "#123456", none, none⟩⟩).accent ≠ some "#FFD23F"
    ∧ (resolveColors ⟨some ⟨some "#123456", none, none⟩⟩).background ≠ some "#0a0a12"
    ∧ (resolveColors ⟨some ⟨some "#123456", none, none⟩⟩).primary = some "#123456" := by
  refine ⟨?_, ?_, rfl⟩ <;> intro h <;> simp [resolveColors] at h

/-- C5 amended: the resolver substitutes the complete default palette only
when the customization supplies no colors object at all; a supplied colors
object is used as-is (supplied fields kept, missing fields left absent);
the PDF path then maps an absent field to the fallback RGB triple through
`hexToRgb("undefined")`. -/
theorem resolveColors_whole_object :
    resolveColors ⟨none⟩ = defaultColors
    ∧ (∀ c : ColorsObj, resolveColors ⟨some c⟩ = c)
    ∧ hexToRgb (jsUndef none) = ⟨176, 38, 255⟩ :=
  ⟨rfl, fun _ => rfl, by decide⟩

/-- C9: when `data.skills` is not an array — absent or the empty string —
the `(data.skills || '').split(',').map(trim)` fallback produces the
one-element list `['']`, not `[]`, so the rendered skills block contains
exactly one chip element with empty text. -/
theorem skillsList_empty_fallback :
    skillsListOf SkillsVal.undef = [""]
    ∧ skillsListOf (SkillsVal.str "") = [""]
    ∧ skillsListOf SkillsVal.undef ≠ []
    ∧ skillChipsHtml (skillsListOf SkillsVal.undef) = "<span class=\"skill\"></span>"
    ∧ skillChipsHtml (skillsListOf (SkillsVal.str "")) = "<span class=\"skill\"></span>"
    ∧ (skillsListOf (SkillsVal.str "")).length = 1 := by
  refine ⟨by decide, by decide, by decide, by decide, by decide, by decide⟩

/-! ### Decimal rendering is injective (for the filename uniqueness claim) -/

theorem toNat_digitChar : ∀ d : Fin 10, (Char.ofNat (48 + d)).toNat = 48 + d := by decide

theorem decValue_decDigits (n : ℕ) : decValue (decDigits n) = n := by
  induction n using Nat.strong_induction_on with
  | _ n ih =>
    unfold decDigits
    split
    · rename_i h
      have := toNat_digitChar ⟨n, h⟩
      simp only [decValue, List.foldl_cons, List.foldl_nil, this]
      omega
    · rename_i h
      have hrec := ih (n / 10) (Nat.div_lt_self (by omega) (by omega))
      have hd := toNat_digitChar ⟨n % 10, by omega⟩
      simp only [decValue, List.foldl_append, List.foldl_cons, List.foldl_nil] at *
      rw [hrec, hd]
      omega

theorem decDigits_injective (n₁ n₂ : ℕ) (h : decDigits n₁ = decDigits n₂) : n₁ = n₂ := by
  have := decValue_decDigits n₁
  rw [h, decValue_decDigits n₂] at this
  omega

/-- C6 counterexample: in the html-pdf variant (`server.js`) the artifact
path is a function of the portfolio id alone — two generation calls at
different clock values 1000 and 2000 for the same portfolio produce the very
same path, so the second write overwrites the first artifact. -/
theorem v2GeneratedPdfPath_collision :
    v2GeneratedPdfPath "p1" 1000 = v2GeneratedPdfPath "p1" 2000
    ∧ v2GeneratedPdfPath "p1" 1000 = "generated/pdfs/p1.pdf" :=
  ⟨rfl, by decide⟩

/-- C6 amended: in the pdfkit variant (`part_000`) the filename embeds the
portfolio id and the `Date.now()` timestamp, so two generation calls for the
same portfolio with distinct timestamps produce distinct filenames and the
second generation never overwrites the first; the html-pdf variant derives
its path from the portfolio id alone and overwrites on regeneration. -/
theorem pdfFilename_distinct (id : String) (n₁ n₂ : ℕ) (h : n₁ ≠ n₂) :
    pdfFilename id n₁ ≠ pdfFilename id n₂ := by
  intro heq
  apply h
  apply decDigits_injective
  have hdata := congrArg String.data heq
  simp only [pdfFilename, String.data_append, jsNumToString, List.append_assoc] at hdata
  have h1 := List.append_cancel_left hdata
  have h2 := List.append_cancel_left h1
  have h3 := List.append_cancel_left h2
  exact List.append_cancel_right h3

/-- C6 witness: distinct timestamps at a concrete portfolio id. -/
theorem pdfFilename_distinct_witness :
    pdfFilename "abc123" 1000 ≠ pdfFilename "abc123" 2000 :=
  pdfFilename_distinct "abc123" 1000 2000 (by decide)

/-! ### Substring occurrence helpers -/

theorem substr_appL (x : String) {n y : String} (h : substrOccurs n y) :
    substrOccurs n (x ++ y) := by
  obtain ⟨s, t, hst⟩ := h
  exact ⟨x.data ++ s, t, by rw [String.data_append, ← hst]; simp [List.append_assoc]⟩

theorem substr_appR (y : String) {n x : String} (h : substrOccurs n x) :
    substrOccurs n (x ++ y) := by
  obtain ⟨s, t, hst⟩ := h
  exact ⟨s, t ++ y.data, by rw [String.data_append, ← hst]; simp [List.append_assoc]⟩

theorem substr_reassoc3 (a b c d : String) {n : String}
    (h : substrOccurs n (a ++ (b ++ c))) : substrOccurs n (a ++ (b ++ (c ++ d))) := by
  have he : a ++ (b ++ (c ++ d)) = (a ++ (b ++ c)) ++ d := by
    simp [String.append_assoc]
  rw [he]
  exact substr_appR d h

/-- C8: document generation is deterministic and its only dependence on the
clock is the embedded timestamp: the composed HTML document factors as a
clock-independent part, the interpolated footer year, and a
clock-independent tail; the PDF drawing trace is clock-independent except
for its final footer operation, which carries the rendered date. -/
theorem generation_deterministic (data : HtmlData) (template : String)
    (cz : Customizations) (year : ℕ) (pw ph : ℚ) (wS : String → ℚ) (ts : String)
    (p : PdfPortfolio) :
    generatePortfolioHTML data template cz year =
      htmlTimePre data template cz ++ jsNumToString year ++ htmlTimePost data template
    ∧ (generatePdfTrace pw ph wS ts p).dropLast = (generatePdfTrace pw ph wS "" p).dropLast
    ∧ (generatePdfTrace pw ph wS ts p).getLast? = some (footerOp pw ph ts) := by
  refine ⟨?_, ?_, ?_⟩
  · cases h : templateStrategy template <;>
      simp only [generatePortfolioHTML, htmlTimePre, htmlTimePost, h, applyTemplate,
        generateModernTemplate, generateClassicTemplate, generateArtisticTemplate,
        String.append_assoc]
  · unfold generatePdfTrace
    rw [List.dropLast_concat, List.dropLast_concat]
  · unfold generatePdfTrace
    rw [List.getLast?_concat]

theorem append_ne_empty_left {a : String} (b : String) (ha : a ≠ "") : a ++ b ≠ "" := by
  intro h
  have hd := congrArg String.data h
  simp only [String.data_append] at hd
  exact ha (String.ext (List.append_eq_nil.mp hd).1)

/-- C10: the modern composer never fails on absent optional fields, but the
unconditionally interpolated fields — `aboutMe` in the About block, `title`
in the document title, `experience` in the header — render as the literal
text `undefined` when the field is absent, while an explicitly empty string
yields an empty body. -/
theorem undefined_interpolation_spec (data : HtmlData) (cz : Customizations) (year : ℕ) :
    (data.aboutMe = none →
      substrOccurs "<div class=\"section-content\">undefined</div>"
        (generatePortfolioHTML data "modern" cz year))
    ∧ (data.title = none →
      substrOccurs " - undefined</title>" (generatePortfolioHTML data "modern" cz year))
    ∧ (data.experience = none →
      substrOccurs "<p>undefined • " (generatePortfolioHTML data "modern" cz year))
    ∧ (data.aboutMe = some "" →
      substrOccurs "<div class=\"section-content\"></div>"
        (generatePortfolioHTML data "modern" cz year)) := by
  have hmod : templateStrategy "modern" = TemplateKind.modern := by decide
  refine ⟨fun habout => ?_, fun htitle => ?_, fun hexp => ?_, fun habout => ?_⟩
  · simp only [generatePortfolioHTML, hmod, applyTemplate, generateModernTemplate,
      modernBody, String.append_assoc]
    iterate 12 apply substr_appL
    apply substr_appR
    simp only [modernAboutSection, habout, jsUndef]
    decide
  · simp only [generatePortfolioHTML, docHead, htitle, jsUndef, String.append_assoc]
    iterate 2 apply substr_appL
    apply substr_reassoc3
    decide
  · simp only [generatePortfolioHTML, hmod, applyTemplate, generateModernTemplate,
      modernBody, hexp, jsUndef, String.append_assoc]
    iterate 7 apply substr_appL
    apply substr_reassoc3
    decide
  · simp only [generatePortfolioHTML, hmod, applyTemplate, generateModernTemplate,
      modernBody, String.append_assoc]
    iterate 12 apply substr_appL
    apply substr_appR
    simp only [modernAboutSection, habout, jsUndef]
    decide

/-- C10 witness: the theorem applied to a record with absent fields and to a
record with an explicitly empty About field. -/
theorem undefined_interpolation_spec_witness :
    substrOccurs "<div class=\"section-content\">undefined</div>"
      (generatePortfolioHTML undefinedFieldsData "modern" ⟨none⟩ 2026)
    ∧ substrOccurs " - undefined</title>"
        (generatePortfolioHTML undefinedFieldsData "modern" ⟨none⟩ 2026)
    ∧ substrOccurs "<div class=\"section-content\"></div>"
        (generatePortfolioHTML emptyAboutData "modern" ⟨none⟩ 2026) :=
  ⟨(undefined_interpolation_spec undefinedFieldsData ⟨none⟩ 2026).1 rfl,
   (undefined_interpolation_spec undefinedFieldsData ⟨none⟩ 2026).2.1 rfl,
   (undefined_interpolation_spec emptyAboutData ⟨none⟩ 2026).2.2.2 rfl⟩

/-- C4 counterexample: a record whose About field is empty still renders the
`About Me` heading and its container — the conditional-section rule is not
applied to the About block, contradicting "applied uniformly to all
sections, including the About block". -/
theorem about_heading_renders_when_empty :
    jsTruthy emptyAboutData.aboutMe = false
    ∧ substrOccurs "<h2>About Me</h2>"
        (generatePortfolioHTML emptyAboutData "modern" ⟨none⟩ 2026)
    ∧ modernAboutSection emptyAboutData ≠ "" := by
  have hmod : templateStrategy "modern" = TemplateKind.modern := by decide
  refine ⟨by decide, ?_, by decide⟩
  simp only [generatePortfolioHTML, hmod, applyTemplate, generateModernTemplate,
    modernBody, String.append_assoc]
  iterate 12 apply substr_appL
  apply substr_appR
  decide

/-- C4 amended: in the modern template the render-iff-truthy rule holds
exactly for the conditional fragments — jobs/Experience, services,
testimonials, phone, and every social-platform anchor: the fragment is the
empty string iff the backing field is absent or empty, and a truthy field
always renders its heading.  The About block (like the Skills and Connect
blocks) is rendered unconditionally: its fragment is never empty. -/
theorem conditional_sections_iff (data : HtmlData) :
    (modernJobsSection data = "" ↔ jsTruthy data.jobs = false)
    ∧ (modernServicesSection data = "" ↔ jsTruthy data.services = false)
    ∧ (modernTestimonialsSection data = "" ↔ jsTruthy data.testimonials = false)
    ∧ (phoneLine data = "" ↔ jsTruthy data.phone = false)
    ∧ (∀ url : Option String, ∀ icon : String,
        socialAnchor url icon = "" ↔ jsTruthy url = false)
    ∧ modernAboutSection data ≠ ""
    ∧ (jsTruthy data.jobs = true →
        substrOccurs "<h2>Experience</h2>" (modernJobsSection data))
    ∧ (jsTruthy data.services = true →
        substrOccurs "<h2>Services</h2>" (modernServicesSection data))
    ∧ (jsTruthy data.testimonials = true →
        substrOccurs "<h2>Testimonials</h2>" (modernTestimonialsSection data)) := by
  refine ⟨?_, ?_, ?_, ?_, ?_, ?_, ?_, ?_, ?_⟩
  · unfold modernJobsSection
    cases h : jsTruthy data.jobs <;> simp [h]
    exact append_ne_empty_left _ (append_ne_empty_left _ (by decide))
  · unfold modernServicesSection
    cases h : jsTruthy data.services <;> simp [h]
    exact append_ne_empty_left _ (append_ne_empty_left _ (by decide))
  · unfold modernTestimonialsSection
    cases h : jsTruthy data.testimonials <;> simp [h]
    exact append_ne_empty_left _ (append_ne_empty_left _ (by decide))
  · unfold phoneLine
    cases h : jsTruthy data.phone <;> simp [h]
    exact append_ne_empty_left _ (append_ne_empty_left _ (by decide))
  · intro url icon
    unfold socialAnchor
    match url with
    | none => simp [jsTruthy]
    | some u =>
      by_cases hu : u.isEmpty <;> simp [hu, jsTruthy]
      exact append_ne_empty_left _ (append_ne_empty_left _
        (append_ne_empty_left _ (append_ne_empty_left _ (by decide))))
  · unfold modernAboutSection
    exact append_ne_empty_left _ (append_ne_empty_left _ (by decide))
  · intro h
    unfold modernJobsSection
    rw [if_pos h]
    apply substr_appR
    apply substr_appR
    decide
  · intro h
    unfold modernServicesSection
    rw [if_pos h]
    apply substr_appR
    apply substr_appR
    decide
  · intro h
    unfold modernTestimonialsSection
    rw [if_pos h]
    apply substr_appR
    apply substr_appR
    decide

/-- C4 witness: the amended rule exercised on a fully populated record. -/
theorem conditional_sections_iff_witness :
    substrOccurs "<h2>Experience</h2>" (modernJobsSection fullData)
    ∧ substrOccurs "<h2>Services</h2>" (modernServicesSection fullData)
    ∧ (modernTestimonialsSection fullData = "" ↔ jsTruthy fullData.testimonials = false) :=
  ⟨(conditional_sections_iff fullData).2.2.2.2.2.2.1 (by decide),
   (conditional_sections_iff fullData).2.2.2.2.2.2.2.1 (by decide),
   (conditional_sections_iff fullData).2.2.1⟩

/-! ### Page-count lemmas for the PDF trace -/

theorem countP_coverOps (pw : ℚ) (p : PdfPortfolio) (prgb argb : Rgb) :
    (coverOps pw p prgb argb).countP isAddPage = 0 := by
  unfold coverOps
  cases p.description with
  | none => simp [List.countP_append, List.countP_cons, isAddPage]
  | some d =>
    by_cases hd : d.isEmpty <;>
      simp [hd, List.countP_append, List.countP_cons, isAddPage]

theorem countP_aboutOps (pw : ℚ) (p : PdfPortfolio) (argb : Rgb) :
    (aboutOps pw p argb).countP isAddPage = if jsTruthy p.artist.bio then 1 else 0 := by
  unfold aboutOps jsTruthy
  cases p.artist.bio with
  | none => simp
  | some b => by_cases hb : b.isEmpty <;> simp [hb, List.countP_cons, isAddPage]

theorem countP_sectionOps (pw : ℚ) (argb : Rgb) (s : PdfSection) :
    (sectionOps pw argb s).countP isAddPage = 1 := by
  unfold sectionOps
  cases s.content with
  | none => simp [List.countP_append, List.countP_cons, isAddPage]
  | some c =>
    by_cases hc : c.isEmpty <;>
      simp [hc, List.countP_append, List.countP_cons, isAddPage]

theorem countP_sections (pw : ℚ) (argb : Rgb) (l : List PdfSection) :
    (l.flatMap (sectionOps pw argb)).countP isAddPage = l.length := by
  induction l with
  | nil => rfl
  | cons s l ih =>
    simp only [List.flatMap_cons, List.countP_append, countP_sectionOps, ih,
      List.length_cons]
    omega

theorem countP_chipOps (prgb : Rgb) (places : List Chip) :
    (chipOps prgb places).countP isAddPage = 0 := by
  induction places with
  | nil => rfl
  | cons c cs ih =>
    simp only [chipOps, List.flatMap_cons, List.countP_append, List.countP_cons,
      List.countP_nil, isAddPage] at *
    simpa using ih

theorem countP_skillsOps (pw : ℚ) (wS : String → ℚ) (prgb argb : Rgb)
    (genres : List String) :
    (skillsOps pw wS prgb argb genres).countP isAddPage =
      if genres.isEmpty then 0 else 1 := by
  unfold skillsOps
  by_cases hg : genres.isEmpty <;>
    simp [hg, List.countP_append, List.countP_cons, isAddPage, countP_chipOps]

theorem countP_socialOps (links : List (String × Option String)) (y : ℚ) :
    (socialOps links y).countP isAddPage = 0 := by
  induction links generalizing y with
  | nil => rfl
  | cons pu rest ih =>
    obtain ⟨plat, u⟩ := pu
    cases u with
    | none => exact ih y
    | some url =>
      by_cases hu : url.isEmpty <;>
        simp [socialOps, hu, List.countP_cons, isAddPage, ih]

theorem countP_contactOps (pw : ℚ) (p : PdfPortfolio) (prgb argb : Rgb) :
    (contactOps pw p prgb argb).countP isAddPage = 1 := by
  unfold contactOps
  cases hl : p.artist.location with
  | none =>
    cases p.artist.socialLinks with
    | none => simp [List.countP_append, List.countP_cons, isAddPage]
    | some links =>
      simp [List.countP_append, List.countP_cons, isAddPage, countP_socialOps]
  | some l =>
    by_cases hcity : (jsTruthy l.city || jsTruthy l.country) = true <;>
      cases p.artist.socialLinks <;>
        simp [hcity, List.countP_append, List.countP_cons, isAddPage, countP_socialOps]

/-! ### Section-header sublist lemmas -/

theorem headerOp_sublist_sectionOps (pw : ℚ) (argb : Rgb) (s : PdfSection) :
    List.Sublist [PdfOp.textAt (jsToUpper (jsOr s.title s.type)) 60 65]
      (sectionOps pw argb s) := by
  apply List.singleton_sublist.mpr
  unfold sectionOps
  apply List.mem_append_left
  simp

theorem map_sublist_flatMap {α β : Type} (f : α → β) (g : α → List β)
    (h : ∀ a, List.Sublist [f a] (g a)) :
    ∀ l : List α, List.Sublist (l.map f) (l.flatMap g) := by
  intro l
  induction l with
  | nil => simp
  | cons a l ih => simpa using List.Sublist.append (h a) ih

/-- C1: one generate-pdf call over a portfolio with N sections draws exactly
`1 (cover) + (1 if bio truthy) + N + (1 if genres non-empty) + 1 (contact)`
pages: the cover is the initial page and every other page starts with an
explicit `doc.addPage()`; moreover the section header texts appear in the
trace one per section in array order — a section page is consumed (its
header drawn) even when the section content is empty. -/
theorem pdf_page_count (pw ph : ℚ) (wS : String → ℚ) (ts : String) (p : PdfPortfolio) :
    numPages (generatePdfTrace pw ph wS ts p) =
      1 + ((if jsTruthy p.artist.bio then 1 else 0) + p.sections.length +
        (if p.artist.genres.isEmpty then 0 else 1) + 1)
    ∧ List.Sublist
        (p.sections.map fun s => PdfOp.textAt (jsToUpper (jsOr s.title s.type)) 60 65)
        (generatePdfTrace pw ph wS ts p) := by
  constructor
  · unfold numPages generatePdfTrace
    simp only [List.countP_append, countP_coverOps, countP_aboutOps, countP_sections,
      countP_skillsOps, countP_contactOps, List.countP_cons, List.countP_nil,
      footerOp, isAddPage]
    norm_num
  · simp only [generatePdfTrace]
    refine List.Sublist.trans
      (map_sublist_flatMap _
        (sectionOps pw (hexToRgb (jsUndef (p.colors.getD defaultPdfColors).accent)))
        (fun s => headerOp_sublist_sectionOps pw _ s) p.sections)
      ?_
    exact (((List.sublist_append_right _ _).trans
      (List.sublist_append_left _ _)).trans
      (List.sublist_append_left _ _)).trans
      (List.sublist_append_left _ _)

/-! ### Chip-layout lemmas -/

theorem chipPlaces_cons (pw : ℚ) (wS : String → ℚ) (g : String) (gs : List String)
    (sx sy : ℚ) :
    chipPlaces pw wS (g :: gs) (sx, sy) =
      ⟨g, if sx + (wS g + 20) > pw - 50 then 50 else sx,
          if sx + (wS g + 20) > pw - 50 then sy + 35 else sy, wS g + 20⟩ ::
      chipPlaces pw wS gs
        ((if sx + (wS g + 20) > pw - 50 then 50 else sx) + (wS g + 20) + 10,
         if sx + (wS g + 20) > pw - 50 then sy + 35 else sy) := rfl

theorem chipPlaces_map_genre (pw : ℚ) (wS : String → ℚ) :
    ∀ (gs : List String) (st : ℚ × ℚ), (chipPlaces pw wS gs st).map Chip.genre = gs := by
  intro gs
  induction gs with
  | nil => intro st; rfl
  | cons g gs ih =>
    intro st
    obtain ⟨sx, sy⟩ := st
    rw [chipPlaces_cons]
    simp [ih]

theorem chipPlaces_width (pw : ℚ) (wS : String → ℚ) :
    ∀ (gs : List String) (st : ℚ × ℚ) (c : Chip), c ∈ chipPlaces pw wS gs st →
      c.w = wS c.genre + 20 := by
  intro gs
  induction gs with
  | nil => intro st c hc; simp [chipPlaces] at hc
  | cons g gs ih =>
    intro st c hc
    obtain ⟨sx, sy⟩ := st
    rw [chipPlaces_cons] at hc
    rcases List.mem_cons.mp hc with h | h
    · subst h; rfl
    · exact ih _ c h

theorem chipPlaces_consecutive (pw : ℚ) (wS : String → ℚ) :
    ∀ (gs : List String) (st : ℚ × ℚ) (i : ℕ) (a b : Chip),
      (chipPlaces pw wS gs st).get? i = some a →
      (chipPlaces pw wS gs st).get? (i + 1) = some b →
      chipStepRel pw a b := by
  intro gs
  induction gs with
  | nil => intro st i a b ha hb; simp [chipPlaces] at ha
  | cons g gs ih =>
    intro st i a b ha hb
    obtain ⟨sx, sy⟩ := st
    rw [chipPlaces_cons] at ha hb
    match gs, i with
    | [], 0 => simp [chipPlaces] at hb
    | g2 :: gs2, 0 =>
      rw [chipPlaces_cons] at ha hb
      rw [List.get?_cons_zero] at ha
      rw [List.get?_cons_succ, List.get?_cons_zero] at hb
      obtain rfl : a = _ := (Option.some_inj.mp ha).symm
      obtain rfl : b = _ := (Option.some_inj.mp hb).symm
      unfold chipStepRel
      split <;> split <;> exact ⟨rfl, rfl⟩
    | gs, i + 1 =>
      rw [List.get?_cons_succ] at ha hb
      exact ih _ i a b ha hb

/-- C2: the skills-page chip layout.  Chips are emitted one per genre in
input order, each as a single rectangle of its full computed width (measured
width plus 20) — never split across rows; the cursor starts at `(50, 120)`
(the first chip lands at `x = 50`, at `y = 155` in the degenerate case where
it already overruns the margin); each consecutive pair obeys the wrap rule
`chipStepRel`: when the next chip's right edge would pass `pw - 50` the
cursor resets to `x = 50` and `y` advances by exactly 35, otherwise the chip
sits 10 units right of the previous one on the same row; and the chip loop
never starts a new page, no matter how far `y` advances. -/
theorem chip_layout_spec (pw : ℚ) (wS : String → ℚ) (gs : List String) :
    ((chipPlaces pw wS gs (50, 120)).map Chip.genre = gs)
    ∧ (∀ c ∈ chipPlaces pw wS gs (50, 120), c.w = wS c.genre + 20)
    ∧ (∀ g rest, gs = g :: rest →
        (chipPlaces pw wS gs (50, 120)).get? 0 =
          some ⟨g, 50, if 50 + (wS g + 20) > pw - 50 then 155 else 120, wS g + 20⟩)
    ∧ (∀ (i : ℕ) (a b : Chip), (chipPlaces pw wS gs (50, 120)).get? i = some a →
        (chipPlaces pw wS gs (50, 120)).get? (i + 1) = some b → chipStepRel pw a b)
    ∧ (∀ prgb : Rgb, (chipOps prgb (chipPlaces pw wS gs (50, 120))).countP isAddPage = 0) := by
  refine ⟨chipPlaces_map_genre pw wS gs _, fun c hc => chipPlaces_width pw wS gs _ c hc,
    ?_, fun i a b ha hb => chipPlaces_consecutive pw wS gs _ i a b ha hb,
    fun prgb => countP_chipOps prgb _⟩
  intro g rest h
  subst h
  rw [chipPlaces_cons, List.get?_cons_zero]
  by_cases hw : (50 : ℚ) + (wS g + 20) > pw - 50 <;> simp [hw] <;> norm_num

/-- C2 witness: three chips of constant measured width 100 on a page of
width 300 — the second and third chips wrap to fresh rows. -/
theorem chip_layout_spec_witness :
    chipStepRel 300 ⟨"aa", 50, 120, 120⟩ ⟨"bbbb", 50, 155, 120⟩
    ∧ (chipPlaces 300 (fun _ => (100 : ℚ)) ["aa", "bbbb", "cc"] (50, 120)).map
        Chip.genre = ["aa", "bbbb", "cc"] := by
  constructor
  · apply (chip_layout_spec 300 (fun _ => (100 : ℚ)) ["aa", "bbbb", "cc"]).2.2.2.1 0
    · rw [chipPlaces_cons, List.get?_cons_zero]
      norm_num
    · rw [chipPlaces_cons, List.get?_cons_succ, chipPlaces_cons, List.get?_cons_zero]
      norm_num
  · exact (chip_layout_spec 300 (fun _ => (100 : ℚ)) ["aa", "bbbb", "cc"]).1
